import Mathlib

/-!
Shallow embedding of the EDU AI Lab backend (the `server.js` variant and the
unnamed second variant of the same server), covering the document-ingestion
pipeline, the prompt builders, the bilingual wrapper and the request handlers.
External effects (file reads, the model call, unlink) are modelled by an
oracle environment `Env`; each handler returns its HTTP response together
with an observable trace: how many model calls were made, which reader was
dispatched, how many unlink calls happened, and the prompt that was sent.
-/

namespace EduAI

/-- HTTP responses produced by the handlers: a 200 JSON body with one string
field, or an error status with its machine-readable tag. -/
inductive Response where
  | ok (key : String) (value : String)
  | err (status : Nat) (tag : String)
deriving DecidableEq

/-- The three format-specific readers of the text extractor. -/
inductive Reader where
  | pdf
  | docx
  | txt
deriving DecidableEq

/-- Oracle environment for one request: the outcome of each fallible external
effect (the three file readers and the model call) and whether an unlink of
the temp file would succeed. -/
structure Env where
  pdfResult : Except String String
  docxResult : Except String String
  txtResult : Except String String
  modelResult : Except String String
  unlinkOk : Bool

/-- Observable outcome of an upload-style (multipart) handler. -/
structure HandlerOut where
  response : Response
  modelCalls : Nat
  readerCalled : Option Reader
  unlinkCalls : Nat
  prompt : Option String
deriving DecidableEq

/-- Observable outcome of a JSON-body handler. -/
structure JsonOut where
  response : Response
  modelCalls : Nat
  prompt : Option String
deriving DecidableEq

/-- ASCII lower-casing of a string, modelling the `toLowerCase()` calls of
the source (every dispatch tag involved is ASCII). -/
def lowerStr (s : String) : String :=
  String.mk (s.data.map Char.toLower)

/-- Whitespace as stripped by JS `trim()` (the characters that occur here). -/
def isWs (c : Char) : Bool :=
  c = ' ' || c = '\n' || c = '\t' || c = '\r'

/-- Model of JS `String.prototype.trim`: strip whitespace from both ends. -/
def jsTrim (s : String) : String :=
  String.mk (((s.data.dropWhile isWs).reverse.dropWhile isWs).reverse)

/-- Model of JS template interpolation of a possibly-undefined string value. -/
def jsStr (o : Option String) : String :=
  match o with
  | none => "undefined"
  | some s => s

/-- Model of JS falsiness for an optional string field: `undefined`, `null`
and the empty string are falsy. -/
def jsFalsy (o : Option String) : Bool :=
  match o with
  | none => true
  | some s => s = ""

/-- Model of JS `name.split(".")` on the character list of a string. -/
def splitOnDot : List Char → List (List Char)
  | [] => [[]]
  | c :: rest =>
    match splitOnDot rest with
    | [] => [[]]
    | h :: t => if c = '.' then [] :: h :: t else (c :: h) :: t

/-- Extension tag of the `POST /upload` handler:
`(f.originalname.split(".").pop() || "").toLowerCase()`. -/
def uploadExtTag (name : String) : String :=
  String.mk (((splitOnDot name.data).getLastD []).map Char.toLower)

/-- Core of Node `path.extname` on a character list: the substring from the
last dot to the end, or empty when there is no dot or the only dot is the
leading character of the name. -/
def extnameCore (cs : List Char) : List Char :=
  match cs.reverse.drop ((cs.reverse.takeWhile fun c => c ≠ '.').length) with
  | [] => []
  | _ :: before =>
    if before = [] then [] else '.' :: (cs.reverse.takeWhile fun c => c ≠ '.').reverse

/-- Model of Node `path.extname` as used on `req.file.originalname`. -/
def extname (s : String) : String :=
  String.mk (extnameCore s.data)

/-- The bilingual wrapper of the unnamed variant (`wrapBilingual`). -/
def wrapBilingual (text : String) (language : Option String) : String :=
  match language with
  | none => text
  | some lang =>
    if lang = "" || lowerStr lang = "none" then text
    else
      text ++ "\n\n---\n\n🔁 " ++ lang ++
        " Translation:\nTranslate the entire answer above to " ++ lang ++
        ", preserving structure, headings, lists and tone."

/-- The bilingual wrapper of `server.js` (`buildBilingualWrap`). -/
def buildBilingualWrap (answer : String) (targetLanguage : Option String) : String :=
  match targetLanguage with
  | none => answer
  | some lang =>
    if lang = "" || lowerStr lang = "none" then answer
    else
      answer ++ "\n\n---\n\n🔁 " ++ lang ++
        " Translation:\nPlease translate the entire answer above into " ++ lang ++
        ", keeping structure, headings, lists and tone."

/-- Count clamp pattern `Math.max(1, Math.min(+count || dflt, hi))` applied
to a possibly-absent numeric field (destructuring default `dflt`); note that
`0` is falsy in JS, so a zero count falls back to the default. -/
def clampCount (count : Option Int) (dflt hi : Int) : Int :=
  let c := count.getD dflt
  let v := if c = 0 then dflt else c
  max 1 (min v hi)

/-- The count used by `POST /generate-quiz`. -/
def quizCount (count : Option Int) : Int :=
  clampCount count 10 50

/-- The count used by `POST /flashcards`. -/
def flashcardCount (count : Option Int) : Int :=
  clampCount count 20 100

/-- Summary prompt of the unnamed variant (`promptSummary`). -/
def promptSummary (text : String) (lang : String) : String :=
  "You are an academic summarizer. Create a deep, structured, readable summary in "
    ++ lang ++
    ".\nUse this layout:\n\nTitle: (infer)\n\nExecutive Summary (6–10 sentences):\n- What it\x27s about\n- Why it matters\n- Context/scope\n- Main results or conclusions\n\nKey Concepts (bulleted, concise)\n\nStep-by-Step Explanation (8–14 numbered steps)\n\nExamples & Analogies (2–4)\n\nImportant Data/Formulae (if any)\n\nAssumptions & Limitations (3–6)\n\nImplications & Applications (3–6)\n\nCommon Pitfalls / Misconceptions (3–6)\n\n🎯 10 High-Impact Takeaways (exactly 10 bullets)\n\nSource:\n"
    ++ text

/-- Summary prompt of `server.js` (`buildLongSummaryPrompt`). -/
def buildLongSummaryPrompt (text : String) (lang : String) : String :=
  "\nYou are an academic summarizer. Create a **deep, structured, and readable** summary in "
    ++ lang ++
    ".\nFollow this exact layout (use headings):\n\nTitle: (infer if missing)\n\nExecutive Summary (6–10 sentences):\n- What it is about\n- Why it matters\n- Context and scope\n- Main results or conclusions\n\nKey Concepts (bulleted, concise definitions)\n\nStep-by-Step Explanation (numbered, 8–14 steps):\n- Explain the flow or argument in order\n\nExamples & Analogies (2–4 short examples)\n\nImportant Data/Formulae:\n- (list any numbers, equations, named methods)\n\nAssumptions & Limitations (3–6 bullets)\n\nImplications & Applications (3–6 bullets)\n\nCommon Pitfalls / Misconceptions (3–6 bullets)\n\n🎯 10 High-Impact Takeaways (exactly 10 bullets, crisp)\n\nNow summarize this source content:\n\n"
    ++ text ++ "\n"

/-- Quiz prompt of the unnamed variant (`promptQuiz`). -/
def promptQuiz (text : String) (count : Int) : String :=
  "Create " ++ toString count ++
    " multiple-choice questions from the content below.\nRules:\n- Each question should test meaningful understanding.\n- 4 options (A–D), one correct answer.\n- Mix recall, inference, application.\n- After options, give \"Answer: <Letter> — one-line reason\".\n\nFormat exactly:\n\n1) Question text\nA) ...\nB) ...\nC) ...\nD) ...\nAnswer: <Letter> — reason\n\nContent:\n"
    ++ text

/-- Flashcards prompt of the unnamed variant (`promptFlashcards`). -/
def promptFlashcards (text : String) (count : Int) : String :=
  "Generate " ++ toString count ++
    " high-quality active-recall flashcards from the content.\nReturn lines exactly as:\nQ: <question>\nA: <answer>\n\nCONTENT:\n"
    ++ text

/-- Mindmap prompt of the unnamed variant (`promptMindmap`). -/
def promptMindmap (text : String) : String :=
  "Convert the following content to Mermaid mind map.\nReturn ONLY Mermaid code starting with \"mindmap\".\nUse 3–4 levels of depth, short node text.\n\nCONTENT:\n"
    ++ text

/-- Study-planner prompt of the unnamed variant (`POST /study-planner`). -/
def studyPlannerPrompt (subjects : List String) (examDate : String) (hoursPerDay : Int) : String :=
  "Create a day-by-day study plan until the exam date.\n- Subjects: "
    ++ String.intercalate ", " subjects ++
    "\n- Exam Date: " ++ examDate ++
    "\n- Hours/Day: " ++ toString hoursPerDay ++
    "\n\nFormat:\nTitle, Days Remaining, then a daily schedule (Date: topics, tasks, checkpoints).\nInclude weekly review slots, spaced repetition pointers, and 3 tips for exam week."

/-- Study-plan prompt of `server.js` (`POST /plan`); its subjects line falls
back to N/A when the joined list is empty. -/
def planPrompt (subjects : String) (examDate : String) (hoursPerDay : Int) : String :=
  "\nCreate a day-by-day study plan until the exam date.\n- Subjects: "
    ++ subjects ++
    "\n- Exam Date: " ++ examDate ++
    "\n- Hours/Day: " ++ toString hoursPerDay ++
    "\n\nFormat:\nTitle, Days Remaining, then a daily schedule (Date: topics, tasks, checkpoints).\nInclude weekly review slots, spaced repetition pointers, and 3 tips for exam week.\n"

/-- The PDF reader of the unnamed variant (`readPdf` over pdfjs): iterate the
pages in document order, join the text fragments of a page with one space,
and append a blank-line separator after each page. A document is modelled as
its list of pages, each page as its list of text fragments. -/
def readPdf (pages : List (List String)) : String :=
  pages.foldl (fun out pg => out ++ String.intercalate " " pg ++ "\n\n") ""

/-- The page-joining rule in the words of the specification: fragments of a
page joined with a single space, pages separated by a blank-line separator,
in document order. -/
def pdfSpecText : List (List String) → String
  | [] => ""
  | [pg] => String.intercalate " " pg
  | pg :: pg2 :: rest => String.intercalate " " pg ++ "\n\n" ++ pdfSpecText (pg2 :: rest)

/-- Inner part of the `POST /upload` try-block after extension dispatch:
reader outcome, then empty check, then the model call. -/
def uploadAfterRead (r : Reader) (result : Except String String)
    (language : Option String) (env : Env) :
    Response × Nat × Option Reader × Option String :=
  match result with
  | .error _ => (.err 500 "upload_failed", 0, some r, none)
  | .ok text =>
    if jsTrim text = "" then (.err 400 "empty_file", 0, some r, none)
    else
      let prompt := buildLongSummaryPrompt text "English"
      match env.modelResult with
      | .error _ => (.err 500 "upload_failed", 1, some r, some prompt)
      | .ok ans => (.ok "summary" (buildBilingualWrap ans language), 1, some r, some prompt)

/-- The `POST /upload` handler of `server.js`: `no_file` check before the
try-block, extension dispatch on `uploadExtTag`, and a `finally` that always
performs exactly one unlink attempt whose failure is swallowed (so nothing
in the outcome depends on `env.unlinkOk`). -/
def uploadHandler (name : String) (hasFile : Bool) (language : Option String)
    (env : Env) : HandlerOut :=
  if hasFile then
    let ext := uploadExtTag name
    let inner :=
      if ext = "pdf" then uploadAfterRead .pdf env.pdfResult language env
      else if ext = "docx" then uploadAfterRead .docx env.docxResult language env
      else if ext = "txt" then uploadAfterRead .txt env.txtResult language env
      else ((.err 400 "unsupported_type" : Response), 0, (none : Option Reader),
            (none : Option String))
    { response := inner.1, modelCalls := inner.2.1, readerCalled := inner.2.2.1,
      unlinkCalls := 1, prompt := inner.2.2.2 }
  else
    { response := .err 400 "no_file", modelCalls := 0, readerCalled := none,
      unlinkCalls := 0, prompt := none }

/-- The `POST /summarize-pdf` handler of the unnamed variant: `no_file`
check before the try-block, `path.extname`-based check that rejects anything
but `.pdf`, PDF read, empty check, model call, and a `finally` with exactly
one swallowed unlink attempt. -/
def summarizePdfHandler (name : String) (hasFile : Bool) (language : Option String)
    (env : Env) : HandlerOut :=
  if hasFile then
    let ext := lowerStr (extname name)
    let inner :=
      if ext ≠ ".pdf" then
        ((.err 400 "unsupported_type" : Response), 0, (none : Option Reader),
         (none : Option String))
      else
        match env.pdfResult with
        | .error _ => (.err 500 "summarize_pdf_failed", 0, some Reader.pdf, none)
        | .ok text =>
          if jsTrim text = "" then (.err 400 "empty_pdf", 0, some Reader.pdf, none)
          else
            let prompt := promptSummary text "English"
            match env.modelResult with
            | .error _ => (.err 500 "summarize_pdf_failed", 1, some Reader.pdf, some prompt)
            | .ok ans =>
              (.ok "summary" (wrapBilingual ans language), 1, some Reader.pdf, some prompt)
    { response := inner.1, modelCalls := inner.2.1, readerCalled := inner.2.2.1,
      unlinkCalls := 1, prompt := inner.2.2.2 }
  else
    { response := .err 400 "no_file", modelCalls := 0, readerCalled := none,
      unlinkCalls := 0, prompt := none }

/-- The `POST /generate-quiz` handler of the unnamed variant. -/
def quizHandler (text : Option String) (count : Option Int)
    (language : Option String) (env : Env) : JsonOut :=
  match text with
  | none => ⟨.err 400 "missing_text", 0, none⟩
  | some t =>
    if jsTrim t = "" then ⟨.err 400 "missing_text", 0, none⟩
    else
      let prompt := promptQuiz t (quizCount count)
      match env.modelResult with
      | .error _ => ⟨.err 500 "quiz_failed", 1, some prompt⟩
      | .ok ans => ⟨.ok "quiz" (wrapBilingual ans language), 1, some prompt⟩

/-- The `POST /flashcards` handler of the unnamed variant. -/
def flashcardsHandler (text : Option String) (count : Option Int)
    (language : Option String) (env : Env) : JsonOut :=
  match text with
  | none => ⟨.err 400 "missing_text", 0, none⟩
  | some t =>
    if jsTrim t = "" then ⟨.err 400 "missing_text", 0, none⟩
    else
      let prompt := promptFlashcards t (flashcardCount count)
      match env.modelResult with
      | .error _ => ⟨.err 500 "flashcards_failed", 1, some prompt⟩
      | .ok ans => ⟨.ok "cards" (wrapBilingual ans language), 1, some prompt⟩

/-- The `POST /mindmap` handler of the unnamed variant. -/
def mindmapHandler (text : Option String) (language : Option String)
    (env : Env) : JsonOut :=
  match text with
  | none => ⟨.err 400 "missing_text", 0, none⟩
  | some t =>
    if jsTrim t = "" then ⟨.err 400 "missing_text", 0, none⟩
    else
      let prompt := promptMindmap t
      match env.modelResult with
      | .error _ => ⟨.err 500 "mindmap_failed", 1, some prompt⟩
      | .ok code => ⟨.ok "mermaid" (wrapBilingual code language), 1, some prompt⟩

/-- The `POST /study-planner` handler of the unnamed variant: rejects a falsy
exam date or an empty subjects list with `missing_fields` before any model
call. -/
def studyPlannerHandler (subjects : List String) (examDate : Option String)
    (hoursPerDay : Option Int) (language : Option String) (env : Env) : JsonOut :=
  if jsFalsy examDate || subjects.isEmpty then
    ⟨.err 400 "missing_fields", 0, none⟩
  else
    let prompt := studyPlannerPrompt subjects (jsStr examDate) (hoursPerDay.getD 2)
    match env.modelResult with
    | .error _ => ⟨.err 500 "planner_failed", 1, some prompt⟩
    | .ok ans => ⟨.ok "plan" (wrapBilingual ans language), 1, some prompt⟩

/-- The `POST /plan` handler of `server.js`: no field validation at all; an
empty subjects list is rendered as N/A and the model is called. -/
def planHandler (subjects : List String) (examDate : Option String)
    (hoursPerDay : Option Int) (language : Option String) (env : Env) : JsonOut :=
  let joined := String.intercalate ", " subjects
  let subj := if joined = "" then "N/A" else joined
  let prompt := planPrompt subj (jsStr examDate) (hoursPerDay.getD 2)
  match env.modelResult with
  | .error _ => ⟨.err 500 "plan_failed", 1, some prompt⟩
  | .ok ans => ⟨.ok "plan" (buildBilingualWrap ans language), 1, some prompt⟩

/-- Executable check that `hay` begins with `needle`. -/
def beginsWith : List Char → List Char → Bool
  | [], _ => true
  | _ :: _, [] => false
  | c :: cs, d :: ds => c = d && beginsWith cs ds

/-- Executable check that the character sequence `needle` occurs somewhere
inside `hay`. -/
def containsSeq (hay needle : List Char) : Bool :=
  hay.tails.any (fun t => beginsWith needle t)

/-- Environment in which every external effect succeeds. -/
def envOk : Env :=
  ⟨.ok "text", .ok "text", .ok "text", .ok "ANSWER", true⟩

/-- Environment whose PDF reader yields whitespace-only text. -/
def envBlank : Env :=
  ⟨.ok " ", .error "boom", .error "boom", .ok "ANSWER", true⟩

/-- Environment whose model call yields a Mermaid mind map. -/
def envMind : Env :=
  ⟨.error "x", .error "x", .error "x", .ok "mindmap\n  root", true⟩

/-! Helper lemmas. -/

theorem splitOnDot_ne_nil (cs : List Char) : splitOnDot cs ≠ [] := by
  cases cs with
  | nil => simp [splitOnDot]
  | cons c rest =>
    unfold splitOnDot
    rcases hsp : splitOnDot rest with _ | ⟨hd, tl⟩
    · simp
    · by_cases hc : c = '.' <;> simp [hc]

theorem splitOnDot_no_dot (cs : List Char) (h : '.' ∉ cs) : splitOnDot cs = [cs] := by
  induction cs with
  | nil => rfl
  | cons c rest ih =>
    have hc : ¬ c = '.' := fun e => h (by simp [e])
    have hr : '.' ∉ rest := fun m => h (List.mem_cons_of_mem _ m)
    unfold splitOnDot
    rw [ih hr]
    simp [hc]

theorem splitOnDot_two_le (cs : List Char) (h : '.' ∈ cs) :
    2 ≤ (splitOnDot cs).length := by
  induction cs with
  | nil => simp at h
  | cons c rest ih =>
    unfold splitOnDot
    rcases hsp : splitOnDot rest with _ | ⟨hd, tl⟩
    · exact absurd hsp (splitOnDot_ne_nil rest)
    · by_cases hc : c = '.'
      · simp [hc]
      · have hr : '.' ∈ rest := by
          rcases List.mem_cons.mp h with h1 | h1
          · exact absurd h1.symm hc
          · exact h1
        have h2 := ih hr
        rw [hsp] at h2
        simp only [List.length_cons] at h2
        simp [hc]
        omega

theorem getLastD_irrel {α : Type} (l : List α) (h : l ≠ []) (d d' : α) :
    l.getLastD d = l.getLastD d' := by
  cases l with
  | nil => exact absurd rfl h
  | cons a t => rw [List.getLastD_cons, List.getLastD_cons]

theorem splitOnDot_cons (c : Char) (rest : List Char) :
    splitOnDot (c :: rest) =
      match splitOnDot rest with
      | [] => [[]]
      | h :: t => if c = '.' then [] :: h :: t else (c :: h) :: t := rfl

theorem splitOnDot_last_append (a b : List Char) :
    (splitOnDot (a ++ '.' :: b)).getLastD [] = (splitOnDot b).getLastD [] := by
  induction a with
  | nil =>
    simp only [List.nil_append]
    rcases hsp : splitOnDot b with _ | ⟨hd, tl⟩
    · exact absurd hsp (splitOnDot_ne_nil b)
    · rw [splitOnDot_cons, hsp]
      dsimp only
      rw [if_pos rfl]
      rw [List.getLastD_cons, List.getLastD_cons]
  | cons c a' ih =>
    have hmem : '.' ∈ a' ++ '.' :: b :=
      List.mem_append_right _ (List.mem_cons_self _ _)
    simp only [List.cons_append]
    rcases hsp : splitOnDot (a' ++ '.' :: b) with _ | ⟨hd, tl⟩
    · exact absurd hsp (splitOnDot_ne_nil _)
    · have htl : tl ≠ [] := by
        have h2 := splitOnDot_two_le _ hmem
        rw [hsp] at h2
        intro e
        subst e
        simp at h2
      rw [hsp] at ih
      rw [splitOnDot_cons, hsp]
      dsimp only
      by_cases hc : c = '.'
      · subst hc
        rw [if_pos rfl]
        rw [List.getLastD_cons, List.getLastD_cons]
        rw [List.getLastD_cons] at ih
        exact ih
      · simp only [if_neg hc]
        rw [List.getLastD_cons]
        rw [List.getLastD_cons] at ih
        rw [getLastD_irrel tl htl (c :: hd) hd]
        exact ih

theorem takeWhile_all {α : Type} (p : α → Bool) :
    ∀ l : List α, (∀ a ∈ l, p a = true) → l.takeWhile p = l := by
  intro l
  induction l with
  | nil => intro _; rfl
  | cons a t ih =>
    intro h
    have ha := h a (List.mem_cons_self _ _)
    simp [List.takeWhile_cons, ha, ih (fun x hx => h x (List.mem_cons_of_mem _ hx))]

theorem extnameCore_no_dot (cs : List Char) (h : '.' ∉ cs) : extnameCore cs = [] := by
  unfold extnameCore
  have hall : ∀ c ∈ cs.reverse, (fun c => decide (c ≠ '.')) c = true := by
    intro c hc
    simp only [decide_eq_true_eq]
    intro e
    rw [e] at hc
    exact h (List.mem_reverse.mp hc)
  rw [takeWhile_all _ _ hall, List.drop_length]

theorem extname_no_dot (name : String) (h : '.' ∉ name.data) : extname name = "" := by
  unfold extname
  rw [extnameCore_no_dot _ h]

theorem uploadExtTag_no_dot (name : String) (h : '.' ∉ name.data) :
    uploadExtTag name = String.mk (name.data.map Char.toLower) := by
  unfold uploadExtTag
  rw [splitOnDot_no_dot _ h, List.getLastD_cons]
  rfl

theorem uploadExtTag_after_dot (a b : List Char) (h : '.' ∉ b) :
    uploadExtTag (String.mk (a ++ '.' :: b)) = String.mk (b.map Char.toLower) := by
  unfold uploadExtTag
  show String.mk (((splitOnDot (a ++ '.' :: b)).getLastD []).map Char.toLower) = _
  rw [splitOnDot_last_append, splitOnDot_no_dot _ h, List.getLastD_cons]
  rfl

theorem upload_unsupported (name : String) (lang : Option String) (env : Env)
    (h1 : uploadExtTag name ≠ "pdf") (h2 : uploadExtTag name ≠ "docx")
    (h3 : uploadExtTag name ≠ "txt") :
    uploadHandler name true lang env =
      { response := .err 400 "unsupported_type", modelCalls := 0, readerCalled := none,
        unlinkCalls := 1, prompt := none } := by
  simp [uploadHandler, h1, h2, h3]

theorem spdf_unsupported (name : String) (lang : Option String) (env : Env)
    (h : lowerStr (extname name) ≠ ".pdf") :
    summarizePdfHandler name true lang env =
      { response := .err 400 "unsupported_type", modelCalls := 0, readerCalled := none,
        unlinkCalls := 1, prompt := none } := by
  simp [summarizePdfHandler, h]

theorem beginsWith_append (n rest : List Char) : beginsWith n (n ++ rest) = true := by
  induction n with
  | nil => rfl
  | cons c cs ih => simp [beginsWith, ih]

theorem containsSeq_of_split (a needle b : List Char) :
    containsSeq (a ++ needle ++ b) needle = true := by
  unfold containsSeq
  rw [List.any_eq_true]
  refine ⟨needle ++ b, ?_, beginsWith_append needle b⟩
  rw [List.mem_tails, List.append_assoc]
  exact List.suffix_append a (needle ++ b)

theorem noSub (hay needle : String) (h : containsSeq hay.data needle.data = false) :
    ¬ ∃ a b : String, hay = a ++ needle ++ b := by
  rintro ⟨a, b, heq⟩
  have hd : hay.data = a.data ++ needle.data ++ b.data := by
    rw [heq, String.data_append, String.data_append]
  rw [hd, containsSeq_of_split] at h
  exact absurd h (by simp)

theorem readPdf_foldl (doc : List (List String)) (acc : String) :
    doc.foldl (fun out pg => out ++ String.intercalate " " pg ++ "\n\n") acc
      = acc ++ readPdf doc := by
  induction doc generalizing acc with
  | nil => simp [readPdf, String.append_empty]
  | cons pg rest ih =>
    simp only [readPdf, List.foldl_cons]
    rw [ih, ih]
    simp [String.append_assoc, String.empty_append]

theorem readPdf_cons (pg : List String) (rest : List (List String)) :
    readPdf (pg :: rest)
      = (String.intercalate " " pg ++ "\n\n") ++ readPdf rest := by
  show List.foldl _ "" (pg :: rest) = _
  rw [List.foldl_cons, readPdf_foldl]
  simp [String.empty_append]

theorem uploadAfterRead_reader (r : Reader) (res : Except String String)
    (lang : Option String) (env : Env) :
    (uploadAfterRead r res lang env).2.2.1 = some r ∧
    (uploadAfterRead r res lang env).1 ≠ Response.err 400 "unsupported_type" := by
  have ne500 : Response.err 500 "upload_failed" ≠ Response.err 400 "unsupported_type" := by
    decide
  have ne400 : Response.err 400 "empty_file" ≠ Response.err 400 "unsupported_type" := by
    decide
  cases res with
  | error e => exact ⟨rfl, ne500⟩
  | ok s =>
    by_cases hs : jsTrim s = ""
    · have hv : uploadAfterRead r (.ok s) lang env
          = (.err 400 "empty_file", 0, some r, none) := by
        simp [uploadAfterRead, hs]
      rw [hv]
      exact ⟨rfl, ne400⟩
    · cases hm : env.modelResult with
      | error e =>
        have hv : uploadAfterRead r (.ok s) lang env
            = (.err 500 "upload_failed", 1, some r,
               some (buildLongSummaryPrompt s "English")) := by
          simp [uploadAfterRead, hs, hm]
        rw [hv]
        exact ⟨rfl, ne500⟩
      | ok ans =>
        have hv : uploadAfterRead r (.ok s) lang env
            = (.ok "summary" (buildBilingualWrap ans lang), 1, some r,
               some (buildLongSummaryPrompt s "English")) := by
          simp [uploadAfterRead, hs, hm]
        rw [hv]
        exact ⟨rfl, fun h => Response.noConfusion h⟩

/-! Claim theorems. -/

/-- C1: for every request to an upload-accepting handler (`POST /upload`,
`POST /summarize-pdf`) that received a file, exactly one unlink of the
temporary upload file happens before the handler finishes — the file name
and the whole effect environment are quantified, so this covers every exit
path: success, unsupported type, empty content, extraction exception and
upstream error — and the handler outcome is entirely independent of whether
that unlink succeeds, so a deletion failure is swallowed and never changes
the primary HTTP response. -/
theorem claim_C1 (name : String) (language : Option String)
    (p d t m : Except String String) (b1 b2 : Bool) :
    (uploadHandler name true language ⟨p, d, t, m, b1⟩).unlinkCalls = 1 ∧
    (summarizePdfHandler name true language ⟨p, d, t, m, b1⟩).unlinkCalls = 1 ∧
    uploadHandler name true language ⟨p, d, t, m, b1⟩
      = uploadHandler name true language ⟨p, d, t, m, b2⟩ ∧
    summarizePdfHandler name true language ⟨p, d, t, m, b1⟩
      = summarizePdfHandler name true language ⟨p, d, t, m, b2⟩ :=
  ⟨rfl, rfl, rfl, rfl⟩

/-- C2 counterexample: the claim says count=0 behaves as count=1, but in the
code `+count || 10` treats 0 as falsy, so count=0 falls back to the default
(10 for the quiz, 20 for flashcards), not to the lower clamp bound 1; the
prompt built by the handlers at count=0 uses the default count. -/
theorem claim_C2_cex :
    quizCount (some 0) ≠ 1 ∧ quizCount (some 0) = 10 ∧
    flashcardCount (some 0) ≠ 1 ∧ flashcardCount (some 0) = 20 ∧
    (quizHandler (some "t") (some 0) none envOk).prompt = some (promptQuiz "t" 10) ∧
    (flashcardsHandler (some "t") (some 0) none envOk).prompt
      = some (promptFlashcards "t" 20) :=
  ⟨by decide, by decide, by decide, by decide, rfl, rfl⟩

/-- C2 (amended): the count used in the prompt of `POST /generate-quiz` is
the caller-supplied count clamped to 1..50 when it is nonzero, while an
absent or zero count yields the default 10; count=1000 behaves as count=50.
Analogously `POST /flashcards` clamps a nonzero count to 1..100 with
default 20, and count=1000 behaves as count=100. -/
theorem claim_C2_amended :
    (∀ c : Int, quizCount (some c) = if c = 0 then 10 else max 1 (min c 50)) ∧
    (∀ c : Int, flashcardCount (some c) = if c = 0 then 20 else max 1 (min c 100)) ∧
    quizCount none = 10 ∧ flashcardCount none = 20 ∧
    quizCount (some 1000) = 50 ∧ flashcardCount (some 1000) = 100 ∧
    (∀ (t : String) (c : Option Int) (lang : Option String) (env : Env),
      jsTrim t ≠ "" →
      (quizHandler (some t) c lang env).prompt = some (promptQuiz t (quizCount c)) ∧
      (flashcardsHandler (some t) c lang env).prompt
        = some (promptFlashcards t (flashcardCount c))) := by
  refine ⟨?_, ?_, by decide, by decide, by decide, by decide, ?_⟩
  · intro c
    by_cases hc : c = 0
    · subst hc; decide
    · simp [quizCount, clampCount, hc]
  · intro c
    by_cases hc : c = 0
    · subst hc; decide
    · simp [flashcardCount, clampCount, hc]
  · intro t c lang env ht
    constructor
    · cases hm : env.modelResult <;> simp [quizHandler, ht, hm]
    · cases hm : env.modelResult <;> simp [flashcardsHandler, ht, hm]

/-- C2 witness: a request with text present and count=3 builds the quiz
prompt with the clamped count. -/
theorem claim_C2_amended_witness :
    jsTrim "Photosynthesis" ≠ "" ∧
    (quizHandler (some "Photosynthesis") (some 3) none envOk).prompt
      = some (promptQuiz "Photosynthesis" (quizCount (some 3))) :=
  ⟨by decide,
   (claim_C2_amended.2.2.2.2.2.2 "Photosynthesis" (some 3) none envOk (by decide)).1⟩

/-- C3: for every uploaded document of a supported type whose extracted text
is empty or whitespace-only, the handler answers 400 with tag `empty_file`
(`POST /upload`) or `empty_pdf` (`POST /summarize-pdf`) and performs no
model call. -/
theorem claim_C3 (name : String) (lang : Option String) (env : Env) (t : String)
    (ht : jsTrim t = "") :
    (uploadExtTag name = "pdf" → env.pdfResult = .ok t →
      (uploadHandler name true lang env).response = .err 400 "empty_file" ∧
      (uploadHandler name true lang env).modelCalls = 0) ∧
    (uploadExtTag name = "docx" → env.docxResult = .ok t →
      (uploadHandler name true lang env).response = .err 400 "empty_file" ∧
      (uploadHandler name true lang env).modelCalls = 0) ∧
    (uploadExtTag name = "txt" → env.txtResult = .ok t →
      (uploadHandler name true lang env).response = .err 400 "empty_file" ∧
      (uploadHandler name true lang env).modelCalls = 0) ∧
    (lowerStr (extname name) = ".pdf" → env.pdfResult = .ok t →
      (summarizePdfHandler name true lang env).response = .err 400 "empty_pdf" ∧
      (summarizePdfHandler name true lang env).modelCalls = 0) := by
  refine ⟨fun he hr => ?_, fun he hr => ?_, fun he hr => ?_, fun he hr => ?_⟩
  · constructor <;> simp [uploadHandler, he, hr, uploadAfterRead, ht]
  · constructor <;> simp [uploadHandler, he, hr, uploadAfterRead, ht]
  · constructor <;> simp [uploadHandler, he, hr, uploadAfterRead, ht]
  · constructor <;> simp [summarizePdfHandler, he, hr, ht]

/-- C3 witness: a file named a.pdf whose extracted text is a single blank
yields the 400 validations on both upload handlers. -/
theorem claim_C3_witness :
    jsTrim " " = "" ∧ uploadExtTag "a.pdf" = "pdf" ∧
    lowerStr (extname "a.pdf") = ".pdf" ∧
    (uploadHandler "a.pdf" true none envBlank).response = .err 400 "empty_file" ∧
    (summarizePdfHandler "a.pdf" true none envBlank).response = .err 400 "empty_pdf" :=
  ⟨by decide, by decide, by decide,
   ((claim_C3 "a.pdf" none envBlank " " (by decide)).1 (by decide) rfl).1,
   ((claim_C3 "a.pdf" none envBlank " " (by decide)).2.2.2 (by decide) rfl).1⟩

/-- C4: both upload handlers dispatch strictly on the lowercase-normalized
extension tag taken from the original file name (two names with the same tag
are indistinguishable to the handler), and any tag outside the supported set
is rejected with 400 `unsupported_type`, no reader dispatched and no model
call made. -/
theorem claim_C4 :
    (∀ (n1 n2 : String) (hasFile : Bool) (lang : Option String) (env : Env),
        uploadExtTag n1 = uploadExtTag n2 →
        uploadHandler n1 hasFile lang env = uploadHandler n2 hasFile lang env) ∧
    (∀ (name : String) (lang : Option String) (env : Env),
        uploadExtTag name ≠ "pdf" → uploadExtTag name ≠ "docx" →
        uploadExtTag name ≠ "txt" →
        (uploadHandler name true lang env).response = .err 400 "unsupported_type" ∧
        (uploadHandler name true lang env).modelCalls = 0 ∧
        (uploadHandler name true lang env).readerCalled = none) ∧
    (∀ (n1 n2 : String) (hasFile : Bool) (lang : Option String) (env : Env),
        lowerStr (extname n1) = lowerStr (extname n2) →
        summarizePdfHandler n1 hasFile lang env
          = summarizePdfHandler n2 hasFile lang env) ∧
    (∀ (name : String) (lang : Option String) (env : Env),
        lowerStr (extname name) ≠ ".pdf" →
        (summarizePdfHandler name true lang env).response = .err 400 "unsupported_type" ∧
        (summarizePdfHandler name true lang env).modelCalls = 0 ∧
        (summarizePdfHandler name true lang env).readerCalled = none) := by
  refine ⟨?_, ?_, ?_, ?_⟩
  · intro n1 n2 hasFile lang env h
    simp only [uploadHandler, h]
  · intro name lang env h1 h2 h3
    rw [upload_unsupported name lang env h1 h2 h3]
    exact ⟨rfl, rfl, rfl⟩
  · intro n1 n2 hasFile lang env h
    simp only [summarizePdfHandler, h]
  · intro name lang env h
    rw [spdf_unsupported name lang env h]
    exact ⟨rfl, rfl, rfl⟩

/-- C4 witness: a file named file.exe is rejected as `unsupported_type` by
both handlers. -/
theorem claim_C4_witness :
    uploadExtTag "file.exe" = "exe" ∧ lowerStr (extname "file.exe") = ".exe" ∧
    (uploadHandler "file.exe" true none envOk).response = .err 400 "unsupported_type" ∧
    (summarizePdfHandler "file.exe" true none envOk).response
      = .err 400 "unsupported_type" :=
  ⟨by decide, by decide,
   (claim_C4.2.1 "file.exe" none envOk (by decide) (by decide) (by decide)).1,
   (claim_C4.2.2.2 "file.exe" none envOk (by decide)).1⟩

/-- C5: both bilingual wrappers return the answer unchanged, byte for byte,
when the target language is absent or case-insensitively equals the sentinel
none. -/
theorem claim_C5 (answer : String) :
    wrapBilingual answer none = answer ∧
    buildBilingualWrap answer none = answer ∧
    (∀ lang : String, lowerStr lang = "none" →
      wrapBilingual answer (some lang) = answer ∧
      buildBilingualWrap answer (some lang) = answer) := by
  refine ⟨rfl, rfl, fun lang h => ⟨?_, ?_⟩⟩
  · simp [wrapBilingual, h]
  · simp [buildBilingualWrap, h]

/-- C5 witness: the sentinel matching is case-insensitive. -/
theorem claim_C5_witness :
    lowerStr "NoNe" = "none" ∧
    wrapBilingual "Hello" (some "NoNe") = "Hello" ∧
    buildBilingualWrap "Hello" (some "NoNe") = "Hello" :=
  ⟨by decide,
   ((claim_C5 "Hello").2.2 "NoNe" (by decide)).1,
   ((claim_C5 "Hello").2.2 "NoNe" (by decide)).2⟩

/-- C6 counterexample: the empty string is a target language other than the
sentinel none, yet both wrappers return the answer unchanged (JS falsiness
treats an empty language like an absent one), so no translation-directive
block separated by the fixed separator is appended. -/
theorem claim_C6_cex :
    wrapBilingual "A" (some "") = "A" ∧
    buildBilingualWrap "A" (some "") = "A" ∧
    ¬ ∃ a b : String, ("A" : String) = a ++ "\n\n---\n\n" ++ b :=
  ⟨rfl, rfl, noSub "A" "\n\n---\n\n" (by decide)⟩

/-- C6 (amended): for every answer and every nonempty target language that
does not case-insensitively equal the sentinel none, both bilingual wrappers
return the answer followed by the fixed separator and a translation
directive containing the literal target-language name; so the result starts
with the answer and contains the language name inside the appended block. -/
theorem claim_C6_amended (answer lang : String) (h0 : lang ≠ "")
    (h1 : lowerStr lang ≠ "none") :
    wrapBilingual answer (some lang)
      = answer ++ "\n\n---\n\n🔁 " ++ lang ++
          " Translation:\nTranslate the entire answer above to " ++ lang ++
          ", preserving structure, headings, lists and tone." ∧
    buildBilingualWrap answer (some lang)
      = answer ++ "\n\n---\n\n🔁 " ++ lang ++
          " Translation:\nPlease translate the entire answer above into " ++ lang ++
          ", keeping structure, headings, lists and tone." ∧
    (∃ rest : String,
      wrapBilingual answer (some lang) = answer ++ ("\n\n---\n\n" ++ rest) ∧
      ∃ u v : String, rest = u ++ (lang ++ v)) ∧
    (∃ rest : String,
      buildBilingualWrap answer (some lang) = answer ++ ("\n\n---\n\n" ++ rest) ∧
      ∃ u v : String, rest = u ++ (lang ++ v)) := by
  have hsep : ("\n\n---\n\n🔁 " : String) = "\n\n---\n\n" ++ "🔁 " := by decide
  have e1 : wrapBilingual answer (some lang)
      = answer ++ "\n\n---\n\n🔁 " ++ lang ++
          " Translation:\nTranslate the entire answer above to " ++ lang ++
          ", preserving structure, headings, lists and tone." := by
    simp [wrapBilingual, h0, h1]
  have e2 : buildBilingualWrap answer (some lang)
      = answer ++ "\n\n---\n\n🔁 " ++ lang ++
          " Translation:\nPlease translate the entire answer above into " ++ lang ++
          ", keeping structure, headings, lists and tone." := by
    simp [buildBilingualWrap, h0, h1]
  refine ⟨e1, e2, ?_, ?_⟩
  · refine ⟨"🔁 " ++ lang ++ " Translation:\nTranslate the entire answer above to "
        ++ lang ++ ", preserving structure, headings, lists and tone.", ?_,
      "🔁 ", " Translation:\nTranslate the entire answer above to " ++ lang ++
        ", preserving structure, headings, lists and tone.", ?_⟩
    · rw [e1, hsep]
      simp only [String.append_assoc]
    · simp only [String.append_assoc]
  · refine ⟨"🔁 " ++ lang ++ " Translation:\nPlease translate the entire answer above into "
        ++ lang ++ ", keeping structure, headings, lists and tone.", ?_,
      "🔁 ", " Translation:\nPlease translate the entire answer above into " ++ lang ++
        ", keeping structure, headings, lists and tone.", ?_⟩
    · rw [e2, hsep]
      simp only [String.append_assoc]
    · simp only [String.append_assoc]

/-- C6 witness: the wrapper applied with target language French appends the
directive block after the answer. -/
theorem claim_C6_amended_witness :
    wrapBilingual "Hello" (some "French")
      = "Hello" ++ "\n\n---\n\n🔁 " ++ "French" ++
          " Translation:\nTranslate the entire answer above to " ++ "French" ++
          ", preserving structure, headings, lists and tone." :=
  (claim_C6_amended "Hello" "French" (by decide) (by decide)).1

/-- C7 counterexample: `POST /plan`, the `server.js` variant of the study
planner, performs no validation: with an empty subjects array and an exam
date present it answers 200 with a plan (subjects rendered as N/A) and makes
a model call, instead of the claimed 400 `missing_fields`. -/
theorem claim_C7_cex :
    (planHandler [] (some "2025-12-01") none none envOk).response
      = .ok "plan" "ANSWER" ∧
    (planHandler [] (some "2025-12-01") none none envOk).response
      ≠ .err 400 "missing_fields" ∧
    (planHandler [] (some "2025-12-01") none none envOk).modelCalls = 1 :=
  ⟨by decide, by decide, by decide⟩

/-- C7 (amended): `POST /study-planner` with an empty subjects array returns
400 `missing_fields` regardless of the exam date and of the environment,
short-circuiting before any model call; the `POST /plan` variant performs no
such validation and always proceeds to the model call. -/
theorem claim_C7_amended (examDate : Option String) (hoursPerDay : Option Int)
    (language : Option String) (env : Env) :
    (studyPlannerHandler [] examDate hoursPerDay language env).response
      = .err 400 "missing_fields" ∧
    (studyPlannerHandler [] examDate hoursPerDay language env).modelCalls = 0 ∧
    (planHandler [] examDate hoursPerDay language env).modelCalls = 1 := by
  refine ⟨?_, ?_, ?_⟩
  · simp [studyPlannerHandler]
  · simp [studyPlannerHandler]
  · cases hm : env.modelResult <;> simp [planHandler, hm]

/-- C8: the PDF reader returns the text of every page in the document's
physical page order, with the fragments of one page joined by a single space
and pages separated by the blank-line separator (the code additionally
terminates the last page with the same separator). -/
theorem claim_C8 (doc : List (List String)) :
    readPdf doc = pdfSpecText doc ++ (if doc = [] then "" else "\n\n") := by
  induction doc with
  | nil => rfl
  | cons pg rest ih =>
    rw [readPdf_cons, ih]
    cases rest with
    | nil => simp [pdfSpecText, String.append_empty]
    | cons pg2 rs => simp [pdfSpecText, String.append_assoc]

/-- C9: in `POST /upload` the extension tag is everything after the last dot
of the original name and a dotless name is used whole (lowercased), so files
named exactly pdf, docx or txt are dispatched to the corresponding reader
rather than rejected; the `POST /summarize-pdf` variant uses `path.extname`
and rejects every dotless name as `unsupported_type`. -/
theorem claim_C9 :
    (∀ name : String, '.' ∉ name.data →
        uploadExtTag name = String.mk (name.data.map Char.toLower)) ∧
    (∀ a b : List Char, '.' ∉ b →
        uploadExtTag (String.mk (a ++ '.' :: b)) = String.mk (b.map Char.toLower)) ∧
    (∀ (lang : Option String) (env : Env),
        (uploadHandler "pdf" true lang env).readerCalled = some Reader.pdf ∧
        (uploadHandler "docx" true lang env).readerCalled = some Reader.docx ∧
        (uploadHandler "txt" true lang env).readerCalled = some Reader.txt ∧
        (uploadHandler "pdf" true lang env).response ≠ .err 400 "unsupported_type") ∧
    (∀ (name : String) (lang : Option String) (env : Env), '.' ∉ name.data →
        (summarizePdfHandler name true lang env).response
          = .err 400 "unsupported_type") := by
  refine ⟨uploadExtTag_no_dot, uploadExtTag_after_dot, ?_, ?_⟩
  · intro lang env
    have tpdf : uploadExtTag "pdf" = "pdf" := by decide
    have tdocx : uploadExtTag "docx" = "docx" := by decide
    have ttxt : uploadExtTag "txt" = "txt" := by decide
    have ndocx : uploadExtTag "docx" ≠ "pdf" := by decide
    have ntxt1 : uploadExtTag "txt" ≠ "pdf" := by decide
    have ntxt2 : uploadExtTag "txt" ≠ "docx" := by decide
    refine ⟨?_, ?_, ?_, ?_⟩
    · have h := (uploadAfterRead_reader Reader.pdf env.pdfResult lang env).1
      simpa [uploadHandler, tpdf] using h
    · have h := (uploadAfterRead_reader Reader.docx env.docxResult lang env).1
      simpa [uploadHandler, ndocx, tdocx] using h
    · have h := (uploadAfterRead_reader Reader.txt env.txtResult lang env).1
      simpa [uploadHandler, ntxt1, ntxt2, ttxt] using h
    · have h := (uploadAfterRead_reader Reader.pdf env.pdfResult lang env).2
      simpa [uploadHandler, tpdf] using h
  · intro name lang env h
    have hne : lowerStr (extname name) ≠ ".pdf" := by
      rw [extname_no_dot name h]
      decide
    rw [spdf_unsupported name lang env hne]

/-- C9 witness: a file whose whole name is pdf keeps that name as its tag
and is rejected by the `path.extname`-based variant. -/
theorem claim_C9_witness :
    ('.' ∉ ("pdf" : String).data) ∧
    uploadExtTag "pdf" = String.mk (("pdf" : String).data.map Char.toLower) ∧
    (summarizePdfHandler "pdf" true none envOk).response
      = .err 400 "unsupported_type" :=
  ⟨by decide, claim_C9.1 "pdf" (by decide), claim_C9.2.2.2 "pdf" none envOk (by decide)⟩

/-- C10 counterexample: with the empty string supplied as target language,
the mindmap payload is exactly the model output with no directive appended
(no occurrence of the fixed separator), contradicting the claim read over
every language other than the sentinel. -/
theorem claim_C10_cex :
    (mindmapHandler (some "cells") (some "") envMind).response
      = .ok "mermaid" "mindmap\n  root" ∧
    ¬ ∃ a b : String, ("mindmap\n  root" : String) = a ++ "\n\n---\n\n" ++ b :=
  ⟨by decide, noSub "mindmap\n  root" "\n\n---\n\n" (by decide)⟩

/-- C10 (amended): `POST /mindmap` applies the bilingual wrapper to the model
output like every other feature: whenever a nonempty target language other
than the sentinel none is supplied, the returned mermaid field is the model
output with the plain-text translation directive appended after it, so the
payload is strictly larger than, and different from, the bare Mermaid
markup returned by the model. -/
theorem claim_C10_amended (t lang : String) (env : Env) (ans : String)
    (h0 : jsTrim t ≠ "") (h1 : lang ≠ "") (h2 : lowerStr lang ≠ "none")
    (hm : env.modelResult = .ok ans) :
    (mindmapHandler (some t) (some lang) env).response
      = .ok "mermaid" (ans ++ "\n\n---\n\n🔁 " ++ lang ++
          " Translation:\nTranslate the entire answer above to " ++ lang ++
          ", preserving structure, headings, lists and tone.") ∧
    (mindmapHandler (some t) (some lang) env).modelCalls = 1 ∧
    (mindmapHandler (some t) (some lang) env).response ≠ .ok "mermaid" ans := by
  have hw : wrapBilingual ans (some lang)
      = ans ++ "\n\n---\n\n🔁 " ++ lang ++
          " Translation:\nTranslate the entire answer above to " ++ lang ++
          ", preserving structure, headings, lists and tone." := by
    simp [wrapBilingual, h1, h2]
  refine ⟨?_, ?_, ?_⟩
  · simp [mindmapHandler, h0, hm, hw]
  · simp [mindmapHandler, h0, hm]
  · simp only [mindmapHandler, h0, hm, if_neg h0]
    intro hcontra
    injection hcontra with hk hval
    rw [hw] at hval
    have hlen := congrArg String.length hval
    simp only [String.length_append] at hlen
    have hs1 : ("\n\n---\n\n🔁 " : String).length = 9 := rfl
    omega

/-- C10 witness: the mindmap payload with target language French is the
Mermaid output of the model followed by the translation directive. -/
theorem claim_C10_amended_witness :
    jsTrim "cells" ≠ "" ∧
    (mindmapHandler (some "cells") (some "French") envMind).response
      = .ok "mermaid" ("mindmap\n  root" ++ "\n\n---\n\n🔁 " ++ "French" ++
          " Translation:\nTranslate the entire answer above to " ++ "French" ++
          ", preserving structure, headings, lists and tone.") :=
  ⟨by decide,
   (claim_C10_amended "cells" "French" envMind "mindmap\n  root"
     (by decide) (by decide) (by decide) rfl).1⟩

end EduAI
